import Mathlib

/-!
Verification development for the CIFAR-10 CNN teaching notebook
(`03_neural_networks_tensorflow/02_keras_cnn.ipynb`).

The notebook's own logic is shallowly embedded below:
tensors are nested lists of rationals, labels are naturals, and the
external TensorFlow / Keras / numpy primitives whose internals the
notebook never defines (automatic differentiation, the Adam update rule,
the dataset shuffle permutation, `exp` and `log`) appear as explicit
function parameters.  Everything the notebook itself writes — the layer
stack of `CIFAR10Classifier.call`, `compute_loss`, `forward_pass`,
`train_loop`, `train_network_concise`, the evaluation cells, the
confusion-matrix and per-class-accuracy computations — is translated
directly from the source.
-/

namespace KerasCnn

/-- One image: a height-indexed list of rows, each row a list of pixels,
each pixel a list of channel intensities (so CIFAR-10 images are
32 × 32 × 3 grids of rationals). -/
abbrev Tensor3 := List (List (List ℚ))

/-- One feature vector. -/
abbrev Tensor1 := List ℚ

/-- The `relu` activation used by `conv_1`, `conv_2` and `dense_5`. -/
def relu (x : ℚ) : ℚ := max x 0

/-- Dot product of two vectors. -/
def dot1 (a b : Tensor1) : ℚ := (List.zipWith (fun x y => x * y) a b).sum

/-- Dot product of two 2-dimensional slabs. -/
def dot2 (a b : List (List ℚ)) : ℚ := (List.zipWith dot1 a b).sum

/-- Dot product of two 3-dimensional blocks (a kernel against a patch). -/
def dot3 (a b : Tensor3) : ℚ := (List.zipWith dot2 a b).sum

/-- The 3 × 3 patch of `input` whose top-left corner is at `(i, j)`. -/
def patch3x3 (input : Tensor3) (i j : Nat) : Tensor3 :=
  ((input.drop i).take 3).map (fun row => (row.drop j).take 3)

/-- Learnable state of a `tf.keras.layers.Conv2D(k, [3, 3])` layer:
one 3 × 3 × C kernel and one bias per output channel. -/
structure ConvLayer where
  kernels : List Tensor3
  biases  : List ℚ

/-- Valid-padding 3 × 3 convolution with `relu` activation, the semantics
of `tf.keras.layers.Conv2D(filters, [3, 3], activation='relu')`: output
pixel `(i, j)` holds, per kernel, the activated windowed dot product. -/
def conv2d (L : ConvLayer) (input : Tensor3) : Tensor3 :=
  (List.range (input.length - 2)).map fun i =>
    (List.range ((input.headD []).length - 2)).map fun j =>
      List.zipWith (fun k b => relu (dot3 k (patch3x3 input i j) + b))
        L.kernels L.biases

/-- Non-overlapping 2 × 2 max pooling, the semantics of
`tf.keras.layers.MaxPooling2D(pool_size=(2, 2))`: channel-wise maximum
over each 2 × 2 window. -/
def maxPool2x2 (input : Tensor3) : Tensor3 :=
  (List.range (input.length / 2)).map fun i =>
    (List.range ((input.headD []).length / 2)).map fun j =>
      let px := fun a b => ((input.getD (2 * i + a) []).getD (2 * j + b) [])
      List.zipWith max (List.zipWith max (px 0 0) (px 0 1))
        (List.zipWith max (px 1 0) (px 1 1))

/-- Row-major flattening of a feature grid into one vector, the semantics
of `tf.keras.layers.Flatten()`. -/
def flatten (t : Tensor3) : Tensor1 := t.flatten.flatten

/-- Learnable state of a `tf.keras.layers.Dense` layer: one weight row and
one bias per output unit. -/
structure DenseLayer where
  weights : List Tensor1
  biases  : List ℚ

/-- Fully-connected layer: each output unit is the activated affine image
of the input vector. -/
def dense (L : DenseLayer) (act : ℚ → ℚ) (x : Tensor1) : Tensor1 :=
  List.zipWith (fun w b => act (dot1 w x + b)) L.weights L.biases

/-- Softmax normalization over a vector of scores.  The framework's `exp`
is an external numeric primitive and is passed in as `expf`. -/
def softmax (expf : ℚ → ℚ) (x : Tensor1) : Tensor1 :=
  let e := x.map expf
  let s := e.sum
  e.map fun v => v / s

/-- Element-wise dropout on a feature vector, the semantics of
`tf.keras.layers.Dropout(rate)`: in training mode each kept unit is
scaled by `1 / (1 - rate)` and each dropped unit becomes `0`; out of
training mode the layer is the identity.  `keep i` is the Bernoulli draw
for unit `i` supplied by the framework's random stream. -/
def dropoutVec (rate : ℚ) (training : Bool) (keep : Nat → Bool)
    (x : Tensor1) : Tensor1 :=
  if training then
    x.enum.map (fun p => if keep p.1 then p.2 / (1 - rate) else 0)
  else x

/-- Element-wise dropout on a 3-dimensional feature grid (the `drop_4`
stage acts before flattening). -/
def dropoutT3 (rate : ℚ) (training : Bool) (keep : Nat → Nat → Nat → Bool)
    (t : Tensor3) : Tensor3 :=
  if training then
    t.enum.map fun ri =>
      ri.2.enum.map fun cj =>
        cj.2.enum.map fun ck =>
          if keep ri.1 cj.1 ck.1 then ck.2 / (1 - rate) else 0
  else t

/-- Keras resolution of the `training` argument for a subclassed model
called as `model(inputs)`: `CIFAR10Classifier.call(self, inputs)` accepts
no `training` parameter, so each `Dropout` sublayer receives the ambient
value; when the model is invoked directly in eager mode with no
`training` keyword the ambient value is absent and falls back to the
default learning phase, which is `False` (inference). -/
def resolveTraining (t : Option Bool) : Bool := t.getD false

/-- The trainable parameters of `CIFAR10Classifier`: two convolutions
(32 and 64 filters) and two dense layers (128 and 10 units). -/
structure CIFAR10ClassifierParams where
  conv_1  : ConvLayer
  conv_2  : ConvLayer
  dense_5 : DenseLayer
  dense_7 : DenseLayer

/-- One sample's worth of Bernoulli draws for the two dropout stages
(`drop_4` on the pooled feature grid, `drop_6` on the 128-vector). -/
structure DropoutNoise where
  keep_4 : Nat → Nat → Nat → Bool
  keep_6 : Nat → Bool

/-- The layer pipeline of `CIFAR10Classifier.call` on a single sample,
in the source's order: `conv_1`, `conv_2`, `pool_3`, `drop_4` (rate
0.25), `Flatten`, `dense_5` (relu), `drop_6` (rate 0.5), `dense_7`
(softmax).  `training` is the Keras training argument as resolved by
`resolveTraining`; `noise` is the dropout randomness for this sample. -/
def classifierCall (expf : ℚ → ℚ) (p : CIFAR10ClassifierParams)
    (training : Option Bool) (noise : DropoutNoise) (inputs : Tensor3) :
    Tensor1 :=
  let tr := resolveTraining training
  let x := conv2d p.conv_1 inputs
  let x := conv2d p.conv_2 x
  let x := maxPool2x2 x
  let x := dropoutT3 (1 / 4) tr noise.keep_4 x
  let x := flatten x
  let x := dense p.dense_5 relu x
  let x := dropoutVec (1 / 2) tr noise.keep_6 x
  softmax expf (dense p.dense_7 id x)

/-- Application of the model to a batch: per-sample application with a
per-sample slice of the dropout randomness. -/
def classifierCallBatch (expf : ℚ → ℚ) (p : CIFAR10ClassifierParams)
    (training : Option Bool) (noise : Nat → DropoutNoise)
    (batch : List Tensor3) : List Tensor1 :=
  batch.enum.map fun s => classifierCall expf p training (noise s.1) s.2

/-- The notebook's `compute_loss`: sparse categorical cross-entropy with
`from_logits=False`, i.e. the mean over the batch of the negated log of
the probability the prediction assigns to the true class.  The
framework's `log` is passed in as `logf`. -/
def compute_loss (logf : ℚ → ℚ) (y_true : List Nat)
    (y_pred : List Tensor1) : ℚ :=
  let terms := List.zipWith (fun y p => -(logf (p.getD y 0))) y_true y_pred
  terms.sum / terms.length

/-- The notebook's `forward_pass`: `y_pred = model(batch_data)` — note
the absence of a `training` keyword, embedded as `Option.none` — then
`compute_loss(y_true, y_pred)`. -/
def forward_pass (expf logf : ℚ → ℚ) (model : CIFAR10ClassifierParams)
    (noise : Nat → DropoutNoise) (batch_data : List Tensor3)
    (y_true : List Nat) : ℚ :=
  let y_pred := classifierCallBatch expf model Option.none noise batch_data
  compute_loss logf y_true y_pred

/-- Keras `model.predict` / `model.evaluate` forward pass: the model is
applied with `training=False` (inference mode). -/
def predict (expf : ℚ → ℚ) (p : CIFAR10ClassifierParams)
    (noise : Nat → DropoutNoise) (batch : List Tensor3) : List Tensor1 :=
  classifierCallBatch expf p (some false) noise batch

/-- Tail of `numpy.argmax`: scan the remaining entries keeping the first
index attaining the running maximum. -/
def np_argmax_go (best_idx : Nat) (best : ℚ) (i : Nat) :
    List ℚ → Nat
  | [] => best_idx
  | x :: xs =>
      if best < x then np_argmax_go i x (i + 1) xs
      else np_argmax_go best_idx best (i + 1) xs

/-- The semantics of `numpy.argmax` on one vector: the first index of the
maximal entry (0 on an empty vector). -/
def np_argmax : List ℚ → Nat
  | [] => 0
  | x :: xs => np_argmax_go 0 x 1 xs

/-- Scalar accuracy as computed by the evaluation step: the fraction of
samples whose predicted class equals the true class. -/
def np_accuracy (y_true y_pred : List Nat) : ℚ :=
  ((y_true.zip y_pred).countP fun s => decide (s.1 = s.2)) / y_true.length

/-- The semantics of
`sklearn.metrics.confusion_matrix(y_true, y_pred, labels=range(10))`:
a 10 × 10 grid whose entry `(i, j)` counts the samples of true class `i`
predicted as class `j`. -/
def confusion_matrix (y_true y_pred : List Nat) : List (List Nat) :=
  (List.range 10).map fun i =>
    (List.range 10).map fun j =>
      (y_true.zip y_pred).countP fun s => decide (s.1 = i ∧ s.2 = j)

/-- numpy true division of two integer counts: at `0 / 0` numpy emits an
invalid-value warning and produces NaN rather than raising an exception;
NaN is modelled as `Option.none`. -/
def np_true_divide (a b : Nat) : Option ℚ :=
  if b = 0 then Option.none else some ((a : ℚ) / (b : ℚ))

/-- The per-class accuracy array of the reporting cell,
`cm.diagonal() / cm.sum(axis=1)`: element `i` is the diagonal entry of
row `i` divided (numpy element-wise true division) by the sum of
row `i`. -/
def per_class_accuracy (cm : List (List Nat)) : List (Option ℚ) :=
  (List.range cm.length).map fun i =>
    np_true_divide ((cm.getD i []).getD i 0) (cm.getD i []).sum

/-- The semantics of `dataset.batch(batch_size, drop_remainder=True)`:
consecutive groups of exactly `B` elements; a final group smaller than
`B` is dropped, and a batch size of `0` is out of the operator's domain
(modelled as producing nothing). -/
def batchDrop (B : Nat) (l : List α) : List (List α) :=
  if _h : B = 0 ∨ l.length < B then []
  else l.take B :: batchDrop B (l.drop B)
termination_by l.length
decreasing_by
  simp only [List.length_drop]
  omega

/-- The epoch body fragment of `train_loop`:
`dataset.shuffle(50000)` followed by
`batches = dataset.batch(batch_size=batch_size, drop_remainder=True)`.
`tf.data` datasets are immutable, and the source never assigns the
dataset returned by `shuffle`, so the value bound to `_shuffled` below is
discarded exactly as in the source and the batches are drawn from the
original `dataset`. -/
def epochBatches (shuffle : List (Tensor3 × Nat) → List (Tensor3 × Nat))
    (dataset : List (Tensor3 × Nat)) (batch_size : Nat) :
    List (List (Tensor3 × Nat)) :=
  let _shuffled := shuffle dataset
  batchDrop batch_size dataset

/-- `tf.reshape(batch_data, [-1, 32, 32, 3])` on a batch of dataset
slices that already have shape `(32, 32, 3)`: the layout is unchanged. -/
def reshape_batch (b : List Tensor3) : List Tensor3 := b

/-- The external TensorFlow facilities `train_loop` relies on, with the
gradient type `G` and the optimizer-state type `O` opaque: `expf` and
`logf` are the numeric primitives; `shuffle e` is the permutation the
dataset shuffle would sample in epoch `e`; `noise e b s` is the dropout
randomness for sample `s` of batch `b` in epoch `e`; `gradient` is
`tape.gradient` (loss gradient with respect to the trainable variables,
from the parameters and the recorded batch); `apply_gradients` is the
optimizer update `opt.apply_gradients`. -/
structure TFLib (G O : Type) where
  expf : ℚ → ℚ
  logf : ℚ → ℚ
  shuffle : Nat → List (Tensor3 × Nat) → List (Tensor3 × Nat)
  noise : Nat → Nat → Nat → DropoutNoise
  gradient : CIFAR10ClassifierParams → List (Tensor3 × Nat) → G
  apply_gradients : O → CIFAR10ClassifierParams → G →
    O × CIFAR10ClassifierParams

/-- The notebook's `train_iteration`: forward pass under the gradient
tape, gradient extraction, then exactly one `opt.apply_gradients`
update.  Returns the updated `(model, optimizer)` pair and the loss. -/
def train_iteration (lib : TFLib G O) (noise : Nat → DropoutNoise)
    (data : List Tensor3) (y_true : List Nat)
    (model : CIFAR10ClassifierParams) (opt : O) :
    (CIFAR10ClassifierParams × O) × ℚ :=
  let loss := forward_pass lib.expf lib.logf model noise data y_true
  let grads := lib.gradient model (data.zip y_true)
  let stepped := lib.apply_gradients opt model grads
  ((stepped.2, stepped.1), loss)

/-- One pass of the inner batch loop body: reshape the raw batch, split
images from labels, and run `train_iteration` on them. -/
def loop_step (lib : TFLib G O) (i_epoch : Nat)
    (st : CIFAR10ClassifierParams × O)
    (ib : Nat × List (Tensor3 × Nat)) : CIFAR10ClassifierParams × O :=
  let batch_data := reshape_batch (ib.2.map Prod.fst)
  let y_true := ib.2.map Prod.snd
  (train_iteration lib (lib.noise i_epoch ib.1) batch_data y_true
    st.1 st.2).1

/-- The inner `for i_batch, (batch_data, y_true) in enumerate(batches)`
loop, instrumented with a count of the gradient-update steps taken. -/
def run_batches (lib : TFLib G O) (i_epoch : Nat)
    (batches : List (List (Tensor3 × Nat)))
    (st : CIFAR10ClassifierParams × O) :
    (CIFAR10ClassifierParams × O) × Nat :=
  batches.enum.foldl
    (fun acc ib => (loop_step lib i_epoch acc.1 ib, acc.2 + 1)) (st, 0)

/-- Observable outcome of one `train_loop` run: the final model and
optimizer state, the number of optimizer applications performed, the
progress lines printed, and the training-history record.  The source's
`train_loop` returns `None` and appends to no history structure, so the
`history` component of a run stays empty. -/
structure TrainLoopResult (O : Type) where
  model : CIFAR10ClassifierParams
  opt : O
  update_steps : Nat
  logs : List String
  history : List (ℚ × ℚ)

/-- One iteration of the outer epoch loop of `train_loop`: print the
progress line, compute the (unused) `epoch_steps = int(50000/batch_size)`,
shuffle-then-batch via `epochBatches`, run the batch loop, and print the
timing line. -/
def epoch_step (lib : TFLib G O) (dataset : List (Tensor3 × Nat))
    (batch_size : Nat) (res : TrainLoopResult O) (i_epoch : Nat) :
    TrainLoopResult O :=
  let logs1 := res.logs ++ ["beginning epoch " ++ toString i_epoch]
  let _epoch_steps := 50000 / batch_size
  let batches := epochBatches (lib.shuffle i_epoch) dataset batch_size
  let stepped := run_batches lib i_epoch batches (res.model, res.opt)
  { model := stepped.1.1
    opt := stepped.1.2
    update_steps := res.update_steps + stepped.2
    logs := logs1 ++ ["took some seconds for epoch " ++ toString i_epoch]
    history := res.history }

/-- The notebook's `train_loop`: `for i_epoch in range(n_training_epochs)`
around `epoch_step`, starting from the given model and optimizer. -/
def train_loop (lib : TFLib G O) (dataset : List (Tensor3 × Nat))
    (batch_size n_training_epochs : Nat)
    (model : CIFAR10ClassifierParams) (opt : O) : TrainLoopResult O :=
  (List.range n_training_epochs).foldl
    (epoch_step lib dataset batch_size)
    { model := model, opt := opt, update_steps := 0, logs := []
      history := [] }

/-- Configuration of a Keras optimizer as far as this notebook observes
it: its learning rate. -/
structure AdamConfig where
  learning_rate : ℚ
deriving DecidableEq

/-- Keras resolution of `compile(optimizer="adam")`: the string names the
Adam optimizer constructed with its default learning rate 0.001. -/
def compile_optimizer_adam : AdamConfig := { learning_rate := 1 / 1000 }

/-- The semantics of `dataset`-style batching without `drop_remainder`
(what `model.fit` uses): a final batch smaller than `B` is kept. -/
def batchKeep (B : Nat) (l : List α) : List (List α) :=
  if _h : B = 0 then []
  else if _h2 : l.length ≤ B then (if l.length = 0 then [] else [l])
  else l.take B :: batchKeep B (l.drop B)
termination_by l.length
decreasing_by
  simp only [List.length_drop]
  omega

/-- The external Keras machinery behind `model.fit` on a subclassed
model, opaque to the notebook: a freshly initialized model value, the
per-epoch shuffle of the training data, the per-batch weight update
performed under the compiled optimizer configuration, and the metric
computation recorded once per epoch. -/
structure KerasFitOps (M : Type) where
  init_model : M
  epoch_shuffle : Nat → List (Tensor3 × Nat) → List (Tensor3 × Nat)
  train_step : M → AdamConfig → List (Tensor3 × Nat) → M
  epoch_metrics : M → List (Tensor3 × Nat) → ℚ × ℚ

/-- Keras `model.fit(x, y, batch_size, epochs)`: for each epoch the data
is shuffled, split into batches (the final partial batch kept), the
weights are updated per batch, and exactly one `(loss, accuracy)` record
is appended to the returned history. -/
def keras_fit (ops : KerasFitOps M) (model : M) (cfg : AdamConfig)
    (data : List (Tensor3 × Nat)) (batch_size epochs : Nat) :
    List (ℚ × ℚ) × M :=
  (List.range epochs).foldl
    (fun acc e =>
      let shuffled := ops.epoch_shuffle e data
      let batches := batchKeep batch_size shuffled
      let m2 := batches.foldl (fun mm b => ops.train_step mm cfg b) acc.2
      (acc.1 ++ [ops.epoch_metrics m2 data], m2))
    ([], model)

/-- The notebook's `train_network_concise(_batch_size,
_n_training_epochs, _lr)`: build a fresh `CIFAR10Classifier`, compile it
with the string `"adam"`, and fit.  The `_lr` argument appears in the
signature but is never read in the body. -/
def train_network_concise (ops : KerasFitOps M) (x_train : List Tensor3)
    (y_train : List Nat) (batch_size n_training_epochs : Nat)
    ( _lr : ℚ) : List (ℚ × ℚ) × M :=
  let cnn_model := ops.init_model
  keras_fit ops cnn_model compile_optimizer_adam (x_train.zip y_train)
    batch_size n_training_epochs

/-- The notebook-level state the evaluation cells read and write: the
trained model's parameters, the test partition, and the derived values
each cell assigns (`scores`, `predictions`, `cm`, the per-class accuracy
array). -/
structure EvalEnv where
  cnn_model : CIFAR10ClassifierParams
  x_test : List Tensor3
  y_test : List Nat
  scores : Option (ℚ × ℚ)
  predictions : Option (List Tensor1)
  cm : Option (List (List Nat))
  class_accuracy : Option (List (Option ℚ))

/-- The `cnn_model.evaluate(x_test, y_test)` cell: an inference forward
pass over the test partition, producing the `(loss, accuracy)` scores.
Keras `evaluate` reads the weights and writes none. -/
def evaluate_cell (expf logf : ℚ → ℚ) (noise : Nat → DropoutNoise)
    (env : EvalEnv) : EvalEnv :=
  let preds := predict expf env.cnn_model noise env.x_test
  let loss := compute_loss logf env.y_test preds
  let acc := np_accuracy env.y_test (preds.map np_argmax)
  { env with scores := some (loss, acc) }

/-- The confusion-matrix cell: `predictions = cnn_model.predict(x_test)`,
`cm = confusion_matrix(y_test, argmax(predictions), labels=range(10))`,
then the per-class accuracy array `cm.diagonal() / cm.sum(axis=1)`. -/
def confusion_cell (expf : ℚ → ℚ) (noise : Nat → DropoutNoise)
    (env : EvalEnv) : EvalEnv :=
  let predictions := predict expf env.cnn_model noise env.x_test
  let cmv := confusion_matrix env.y_test (predictions.map np_argmax)
  { env with
      predictions := some predictions
      cm := some cmv
      class_accuracy := some (per_class_accuracy cmv) }

end KerasCnn

namespace KerasCnn

/-- Auxiliary form of `batchDrop_length`, by strong induction on the
length of the remaining data. -/
theorem batchDrop_length_aux {α : Type} (B : Nat) :
    ∀ (n : Nat) (l : List α), l.length = n →
      (batchDrop B l).length = n / B := by
  intro n
  induction n using Nat.strong_induction_on with
  | _ n ih =>
    intro l hn
    rw [batchDrop]
    split
    · rename_i h
      rcases h with h | h
      · simp [h]
      · rw [List.length_nil, Nat.div_eq_of_lt (hn ▸ h)]
    · rename_i h
      push_neg at h
      obtain ⟨hB, hBle⟩ := h
      simp only [List.length_cons]
      rw [ih (n - B) (by omega) (l.drop B) (by simp [List.length_drop, hn])]
      rw [← hn, Nat.div_eq_sub_div (Nat.pos_of_ne_zero hB) hBle, hn]

/-- Mini-batch count under the drop-remainder policy: exactly
`⌊length / B⌋` batches are produced, for every batch size. -/
theorem batchDrop_length {α : Type} (B : Nat) (l : List α) :
    (batchDrop B l).length = l.length / B :=
  batchDrop_length_aux B l.length l rfl

/-- Every mini-batch produced under the drop-remainder policy has exactly
`B` elements. -/
theorem length_of_mem_batchDrop {α : Type} (B : Nat) :
    ∀ (n : Nat) (l b : List α), l.length = n → b ∈ batchDrop B l →
      b.length = B := by
  intro n
  induction n using Nat.strong_induction_on with
  | _ n ih =>
    intro l b hn hb
    rw [batchDrop] at hb
    split at hb
    · simp at hb
    · rename_i h
      push_neg at h
      obtain ⟨hB, hBle⟩ := h
      rcases List.mem_cons.mp hb with rfl | hmem
      · rw [List.length_take]
        omega
      · exact ih (n - B) (by omega) (l.drop B) b
          (by simp [List.length_drop, hn]) hmem

/-- Zipping the projections of a list of pairs reassembles the list. -/
theorem zip_map_fst_snd {α β : Type} :
    ∀ (l : List (α × β)), (l.map Prod.fst).zip (l.map Prod.snd) = l := by
  intro l
  induction l with
  | nil => rfl
  | cons a t ih => simp [ih]

/-- The batches of every epoch are computed from the unshuffled dataset:
the shuffle result is discarded, so `epochBatches` ignores it. -/
theorem epochBatches_unshuffled
    (sh : List (Tensor3 × Nat) → List (Tensor3 × Nat))
    (d : List (Tensor3 × Nat)) (B : Nat) :
    epochBatches sh d B = batchDrop B d := rfl

/-- A fold that pairs an arbitrary state update with a step counter adds
the list length to the counter. -/
theorem foldl_count {A C : Type} (g : A → C → A) :
    ∀ (l : List C) (a : A) (k : Nat),
      (l.foldl (fun ac c => (g ac.1 c, ac.2 + 1)) (a, k)).2
        = k + l.length := by
  intro l
  induction l with
  | nil => intro a k; simp
  | cons c t ih =>
      intro a k
      rw [List.foldl_cons, ih]
      simp only [List.length_cons]
      omega

/-- The inner batch loop performs exactly one optimizer application per
produced mini-batch. -/
theorem run_batches_count {G O : Type} (lib : TFLib G O) (i_epoch : Nat)
    (batches : List (List (Tensor3 × Nat)))
    (st : CIFAR10ClassifierParams × O) :
    (run_batches lib i_epoch batches st).2 = batches.length := by
  unfold run_batches
  rw [foldl_count (loop_step lib i_epoch)]
  simp [List.enum_length]

/-- Bookkeeping of a `train_loop` run: the optimizer is applied exactly
`epochs × ⌊dataset / B⌋` times, both progress lines are printed every
epoch, and the run maintains no training-history record. -/
theorem train_loop_stats {G O : Type} (lib : TFLib G O)
    (dataset : List (Tensor3 × Nat)) (B E : Nat)
    (p : CIFAR10ClassifierParams) (o : O) :
    (train_loop lib dataset B E p o).update_steps
        = E * (batchDrop B dataset).length ∧
      (train_loop lib dataset B E p o).logs.length = 2 * E ∧
      (train_loop lib dataset B E p o).history = [] := by
  induction E with
  | zero => simp [train_loop]
  | succ E ih =>
      unfold train_loop at ih ⊢
      rw [List.range_succ, List.foldl_append, List.foldl_cons,
        List.foldl_nil]
      obtain ⟨h1, h2, h3⟩ := ih
      set R := List.foldl (epoch_step lib dataset B)
        { model := p, opt := o, update_steps := 0, logs := [],
          history := [] } (List.range E) with hR
      refine ⟨?_, ?_, ?_⟩
      · simp only [epoch_step, run_batches_count, epochBatches_unshuffled]
        rw [h1, Nat.succ_mul]
      · simp only [epoch_step, List.length_append, List.length_singleton,
          h2]
        omega
      · exact h3

/-- The scanning tail of `numpy.argmax` never escapes the index range it
was given. -/
theorem np_argmax_go_lt (n : Nat) :
    ∀ (l : List ℚ) (best_idx : Nat) (best : ℚ) (i : Nat),
      best_idx < n → i + l.length ≤ n →
      np_argmax_go best_idx best i l < n := by
  intro l
  induction l with
  | nil =>
      intro bi b i h1 _h2
      simpa [np_argmax_go] using h1
  | cons x xs ih =>
      intro bi b i h1 h2
      simp only [List.length_cons] at h2
      rw [np_argmax_go]
      split
      · exact ih i x (i + 1) (by omega) (by omega)
      · exact ih bi b (i + 1) h1 (by omega)

/-- `numpy.argmax` of a nonempty vector is a valid index into it. -/
theorem np_argmax_lt (l : List ℚ) (h : l ≠ []) :
    np_argmax l < l.length := by
  cases l with
  | nil => simp at h
  | cons x xs =>
      simp only [np_argmax, List.length_cons]
      exact np_argmax_go_lt (xs.length + 1) xs 0 x 1 (by omega) (by omega)

/-- The model emits one probability per `dense_7` output unit: the output
length is determined by the final layer's shape alone. -/
theorem classifierCall_length (expf : ℚ → ℚ)
    (p : CIFAR10ClassifierParams) (t : Option Bool) (n : DropoutNoise)
    (x : Tensor3) :
    (classifierCall expf p t n x).length
      = min p.dense_7.weights.length p.dense_7.biases.length := by
  simp [classifierCall, softmax, dense, List.length_zipWith]

/-- Sums over `List.range` agree with the corresponding `Finset.range`
sums. -/
theorem sum_map_range {M : Type} [AddCommMonoid M] (f : Nat → M)
    (n : Nat) : ((List.range n).map f).sum = (Finset.range n).sum f := by
  induction n with
  | zero => simp
  | succ n ih =>
      rw [List.range_succ, List.map_append, List.sum_append,
        Finset.sum_range_succ, ih]
      simp

/-- Summing the indicator of `c ∧ y = j` over `j < n` collapses to the
indicator of `c` once `y < n`. -/
theorem sum_ite_pair (c : Prop) [Decidable c] (y n : Nat) (hy : y < n) :
    ((Finset.range n).sum fun j => if c ∧ y = j then 1 else 0)
      = if c then 1 else 0 := by
  by_cases hc : c
  · simp only [hc, true_and]
    rw [Finset.sum_ite_eq]
    simp [Finset.mem_range, hy]
  · simp [hc]

/-- Row decomposition of the confusion counts: the counts of class `i`
against every predicted class `j < 10` add up to the count of class `i`,
provided predictions stay below 10. -/
theorem countP_pair_row (i : Nat) :
    ∀ (l : List (Nat × Nat)), (∀ s ∈ l, s.2 < 10) →
      ((Finset.range 10).sum fun j =>
          l.countP fun s => decide (s.1 = i ∧ s.2 = j))
        = l.countP fun s => decide (s.1 = i) := by
  intro l
  induction l with
  | nil => simp
  | cons a t ih =>
      intro h
      have ha := h a (List.mem_cons_self a t)
      have ht : ∀ s ∈ t, s.2 < 10 :=
        fun s hs => h s (List.mem_cons_of_mem a hs)
      simp only [List.countP_cons]
      rw [Finset.sum_add_distrib, ih ht]
      congr 1
      simp only [decide_eq_true_eq]
      exact sum_ite_pair (a.1 = i) a.2 10 ha

/-- Column-collapsed totality: the counts of every true class `i < 10`
add up to the number of samples, provided true classes stay below 10. -/
theorem countP_pair_total :
    ∀ (l : List (Nat × Nat)), (∀ s ∈ l, s.1 < 10) →
      ((Finset.range 10).sum fun i =>
          l.countP fun s => decide (s.1 = i))
        = l.length := by
  intro l
  induction l with
  | nil => simp
  | cons a t ih =>
      intro h
      have ha := h a (List.mem_cons_self a t)
      have ht : ∀ s ∈ t, s.1 < 10 :=
        fun s hs => h s (List.mem_cons_of_mem a hs)
      simp only [List.countP_cons]
      rw [Finset.sum_add_distrib, ih ht, List.length_cons]
      congr 1
      simp only [decide_eq_true_eq]
      rw [Finset.sum_ite_eq]
      simp [Finset.mem_range, ha]

/-- Counting pairs of the zip by their first component counts the first
list, when the two lists have equal length. -/
theorem countP_zip_fst (i : Nat) :
    ∀ (l1 l2 : List Nat), l1.length = l2.length →
      ((l1.zip l2).countP fun s => decide (s.1 = i))
        = l1.countP fun t => decide (t = i) := by
  intro l1
  induction l1 with
  | nil =>
      intro l2 _h
      simp
  | cons a t ih =>
      intro l2 h
      cases l2 with
      | nil => simp at h
      | cons b u =>
          simp only [List.zip_cons_cons, List.countP_cons]
          rw [ih u (by simpa using h)]

/-- Indexing a mapped range selects the mapped value. -/
theorem getD_map_range {β : Type} (f : Nat → β) (n i : Nat) (d : β)
    (h : i < n) : ((List.range n).map f).getD i d = f i := by
  rw [List.getD_eq_getD_get?, List.get?_map, List.get?_range h]
  rfl

/-- Every entry of a list of naturals is bounded by the list's sum. -/
theorem getD_le_sum (l : List Nat) : ∀ (i : Nat), l.getD i 0 ≤ l.sum := by
  induction l with
  | nil => intro i; simp
  | cons a t ih =>
      intro i
      cases i with
      | zero =>
          rw [List.getD_cons_zero, List.sum_cons]
          exact Nat.le_add_right a t.sum
      | succ j =>
          rw [List.getD_cons_succ, List.sum_cons]
          exact (ih j).trans (Nat.le_add_left _ _)

/-- The history returned by `model.fit` holds exactly one record per
configured epoch. -/
theorem keras_fit_history_length {M : Type} (ops : KerasFitOps M)
    (m : M) (cfg : AdamConfig) (data : List (Tensor3 × Nat)) (B : Nat) :
    ∀ (E : Nat), ((keras_fit ops m cfg data B E).1).length = E := by
  intro E
  induction E with
  | zero => simp [keras_fit]
  | succ E ih =>
      unfold keras_fit at ih ⊢
      rw [List.range_succ, List.foldl_append, List.foldl_cons,
        List.foldl_nil]
      simp only [List.length_append, List.length_singleton, ih]

end KerasCnn

namespace KerasCnn

/-- A tiny single-pixel image, used in concrete instantiations. -/
def img (q : ℚ) : Tensor3 := [[[q]]]

/-- A 3 × 3 single-channel image of ones, used in concrete
instantiations. -/
def img3 : Tensor3 := List.replicate 3 (List.replicate 3 [1])

/-- A dropout random stream that keeps every unit, used in concrete
instantiations. -/
def allKeep : Nat → DropoutNoise := fun _ =>
  { keep_4 := fun _ _ _ => true, keep_6 := fun _ => true }

/-- A concrete instantiation of the framework primitives for concrete
runs: identity numerics, reversal as the shuffle permutation, an
all-keep dropout stream, and a unit gradient and optimizer state. -/
def unitLib : TFLib Unit Unit where
  expf := id
  logf := id
  shuffle := fun _ l => l.reverse
  noise := fun _ _ _ =>
    { keep_4 := fun _ _ _ => true, keep_6 := fun _ => true }
  gradient := fun _ _ => ()
  apply_gradients := fun o p _ => (o, p)

/-- A concrete parameter set whose final layer has the architecture's 10
output units. -/
def zeroParams : CIFAR10ClassifierParams where
  conv_1 := { kernels := [], biases := [] }
  conv_2 := { kernels := [], biases := [] }
  dense_5 := { weights := [], biases := [] }
  dense_7 :=
    { weights := List.replicate 10 [], biases := List.replicate 10 0 }

/-- A concrete notebook state for evaluating the reporting cells. -/
def sampleEnv : EvalEnv where
  cnn_model := zeroParams
  x_test := [img3]
  y_test := [0]
  scores := Option.none
  predictions := Option.none
  cm := Option.none
  class_accuracy := Option.none

/-- C1: for every configured batch size `B` (dividing the partition size
or not) and every epoch, the manual loop produces exactly
`⌊train_size / B⌋` mini-batches, each holding exactly `B` samples whose
images and labels remain aligned 1:1; a remainder smaller than `B` is
dropped. -/
theorem C1_drop_remainder_batching
    (sh : List (Tensor3 × Nat) → List (Tensor3 × Nat))
    (images : List Tensor3) (labels : List Nat) (B : Nat)
    ( _hB : 0 < B) (hlen : images.length = labels.length) :
    (epochBatches sh (images.zip labels) B).length = images.length / B ∧
    ∀ b ∈ epochBatches sh (images.zip labels) B,
      b.length = B ∧ (b.map Prod.fst).length = B ∧
      (b.map Prod.snd).length = B ∧
      (b.map Prod.fst).zip (b.map Prod.snd) = b := by
  constructor
  · rw [epochBatches_unshuffled, batchDrop_length, List.length_zip, hlen,
      Nat.min_self]
  · intro b hb
    rw [epochBatches_unshuffled] at hb
    have hlb := length_of_mem_batchDrop B (images.zip labels).length
      (images.zip labels) b rfl hb
    refine ⟨hlb, ?_, ?_, zip_map_fst_snd b⟩
    · simp [hlb]
    · simp [hlb]

/-- Witness for C1: a 3-sample partition with batch size 2 yields exactly
one aligned batch of 2 (the remainder sample is dropped). -/
theorem C1_drop_remainder_batching_witness :
    0 < 2 ∧
    ([img 0, img 1, img 2].length = ([0, 1, 2] : List Nat).length) ∧
    ((epochBatches List.reverse
        ([img 0, img 1, img 2].zip [0, 1, 2]) 2).length
      = [img 0, img 1, img 2].length / 2 ∧
    ∀ b ∈ epochBatches List.reverse ([img 0, img 1, img 2].zip [0, 1, 2]) 2,
      b.length = 2 ∧ (b.map Prod.fst).length = 2 ∧
      (b.map Prod.snd).length = 2 ∧
      (b.map Prod.fst).zip (b.map Prod.snd) = b) :=
  ⟨by decide, by decide,
    C1_drop_remainder_batching List.reverse [img 0, img 1, img 2]
      [0, 1, 2] 2 (by decide) (by decide)⟩

/-- C2 (refutation): the dataset value returned by the epoch's shuffle
call is discarded, so the batches of every epoch are computed from the
original, unshuffled dataset — independently of which shuffle permutation
the framework would have sampled — instead of from a fresh permutation of
the training data. -/
theorem C2_shuffle_result_discarded
    (sh sh2 : List (Tensor3 × Nat) → List (Tensor3 × Nat))
    (d : List (Tensor3 × Nat)) (B : Nat) :
    epochBatches sh d B = epochBatches sh2 d B ∧
    epochBatches sh d B = batchDrop B d :=
  ⟨rfl, rfl⟩

/-- C3 (refutation): the manual loop's `forward_pass` calls the model
without `training=True`, so both dropout stages are inactive there: the
loss is independent of the dropout randomness, and the model application
performed inside the training loop coincides with the inference-mode
(`training=False`) application. -/
theorem C3_dropout_inactive_in_train_loop (expf logf : ℚ → ℚ)
    (model : CIFAR10ClassifierParams) (noise noise2 : Nat → DropoutNoise)
    (batch_data : List Tensor3) (y_true : List Nat) :
    forward_pass expf logf model noise batch_data y_true
        = forward_pass expf logf model noise2 batch_data y_true ∧
      classifierCallBatch expf model Option.none noise batch_data
        = classifierCallBatch expf model (some false) noise2 batch_data :=
  ⟨rfl, rfl⟩

/-- C4 (refutation at the claim's own scenario): on the 4-sample
partition with batch size 2 and 1 epoch, the manual loop does perform 2
update steps, but its training-history record does not contain 1 entry —
the manual loop maintains no history at all. -/
theorem C4_counterexample :
    ¬ ((train_loop unitLib [(img 0, 0), (img 1, 0), (img 2, 1), (img 3, 1)]
          2 1 zeroParams ()).update_steps = 2 ∧
        (train_loop unitLib [(img 0, 0), (img 1, 0), (img 2, 1), (img 3, 1)]
          2 1 zeroParams ()).history.length = 1) := by
  intro h
  obtain ⟨_h1, h2⟩ := h
  have h3 := (train_loop_stats unitLib
    [(img 0, 0), (img 1, 0), (img 2, 1), (img 3, 1)] 2 1 zeroParams ()).2.2
  rw [h3] at h2
  simp at h2

/-- C4 (amended): on a 4-sample partition (2 of class 0, 2 of class 1)
with batch size 2 and 1 epoch, one run of the manual training loop
executes exactly 2 gradient-update steps and leaves the training-history
record empty; a history with exactly 1 entry per configured epoch is
produced only by the concise `fit`-based path. -/
theorem C4_two_steps_no_manual_history {G O M : Type} (lib : TFLib G O)
    (a b c d : Tensor3) (p : CIFAR10ClassifierParams) (o : O)
    (ops : KerasFitOps M) :
    (train_loop lib [(a, 0), (b, 0), (c, 1), (d, 1)] 2 1 p o).update_steps
        = 2 ∧
      (train_loop lib [(a, 0), (b, 0), (c, 1), (d, 1)] 2 1 p o).history
        = [] ∧
      ((keras_fit ops ops.init_model compile_optimizer_adam
          [(a, 0), (b, 0), (c, 1), (d, 1)] 2 1).1).length = 1 := by
  obtain ⟨h1, _h2, h3⟩ :=
    train_loop_stats lib [(a, 0), (b, 0), (c, 1), (d, 1)] 2 1 p o
  refine ⟨?_, h3,
    keras_fit_history_length ops ops.init_model compile_optimizer_adam
      [(a, 0), (b, 0), (c, 1), (d, 1)] 2 1⟩
  rw [h1, batchDrop_length]
  norm_num

/-- C7: inference is deterministic — the inference-mode model application
is independent of the ambient dropout randomness, so two applications to
the identical batch with no intervening parameter update return identical
predicted probability vectors. -/
theorem C7_inference_deterministic (expf : ℚ → ℚ)
    (p : CIFAR10ClassifierParams) (noise noise2 : Nat → DropoutNoise)
    (batch : List Tensor3) :
    predict expf p noise batch = predict expf p noise2 batch := rfl

/-- C9: the evaluation and reporting cells leave the model parameters and
the test partition untouched — individually and composed. -/
theorem C9_evaluation_preserves_state (expf logf : ℚ → ℚ)
    (noise : Nat → DropoutNoise) (env : EvalEnv) :
    ((evaluate_cell expf logf noise env).cnn_model = env.cnn_model ∧
      (evaluate_cell expf logf noise env).x_test = env.x_test ∧
      (evaluate_cell expf logf noise env).y_test = env.y_test) ∧
    ((confusion_cell expf noise env).cnn_model = env.cnn_model ∧
      (confusion_cell expf noise env).x_test = env.x_test ∧
      (confusion_cell expf noise env).y_test = env.y_test) ∧
    ((confusion_cell expf noise
        (evaluate_cell expf logf noise env)).cnn_model = env.cnn_model ∧
      (confusion_cell expf noise
        (evaluate_cell expf logf noise env)).x_test = env.x_test ∧
      (confusion_cell expf noise
        (evaluate_cell expf logf noise env)).y_test = env.y_test) :=
  ⟨⟨rfl, rfl, rfl⟩, ⟨rfl, rfl, rfl⟩, ⟨rfl, rfl, rfl⟩⟩

/-- C10: `train_network_concise` never reads its `_lr` argument — its
result is identical for any two learning rates, all other inputs and all
random choices held equal; the optimizer is built from the string
`"adam"` with its default learning rate. -/
theorem C10_lr_argument_unused {M : Type} (ops : KerasFitOps M)
    (x_train : List Tensor3) (y_train : List Nat)
    (batch_size n_training_epochs : Nat) (lr1 lr2 : ℚ) :
    train_network_concise ops x_train y_train batch_size
        n_training_epochs lr1
      = train_network_concise ops x_train y_train batch_size
        n_training_epochs lr2 := rfl

end KerasCnn

namespace KerasCnn

/-- C5: for every evaluation run over a test partition with labels in
[0, 9], the reporting cell's 10 × 10 confusion matrix sums to the number
of evaluated samples, and each row `i` sums to the number of samples of
true class `i`. -/
theorem C5_confusion_matrix_invariants (expf : ℚ → ℚ)
    (noise : Nat → DropoutNoise) (env : EvalEnv)
    (hy : ∀ y ∈ env.y_test, y < 10)
    (hw : env.cnn_model.dense_7.weights.length = 10)
    (hb : env.cnn_model.dense_7.biases.length = 10)
    (hlen : env.y_test.length = env.x_test.length) :
    ∃ cmv, (confusion_cell expf noise env).cm = some cmv ∧
      cmv.length = 10 ∧ (∀ row ∈ cmv, row.length = 10) ∧
      (cmv.map List.sum).sum = env.y_test.length ∧
      ∀ i, i < 10 →
        (cmv.getD i []).sum
          = env.y_test.countP fun t => decide (t = i) := by
  have hpl : ∀ v ∈ predict expf env.cnn_model noise env.x_test,
      v.length = 10 := by
    intro v hv
    simp only [predict, classifierCallBatch, List.mem_map] at hv
    obtain ⟨s, _hs, rfl⟩ := hv
    rw [classifierCall_length, hw, hb]
    simp
  have hp : ∀ q ∈ (predict expf env.cnn_model noise env.x_test).map
      np_argmax, q < 10 := by
    intro q hq
    simp only [List.mem_map] at hq
    obtain ⟨v, hv, rfl⟩ := hq
    have h10 := hpl v hv
    have hne : v ≠ [] := by
      intro h0
      rw [h0] at h10
      simp at h10
    have := np_argmax_lt v hne
    omega
  have hplen : ((predict expf env.cnn_model noise env.x_test).map
      np_argmax).length = env.y_test.length := by
    simp [predict, classifierCallBatch, List.length_map,
      List.enum_length, hlen]
  have hzip : ∀ s ∈ env.y_test.zip
      ((predict expf env.cnn_model noise env.x_test).map np_argmax),
      s.1 < 10 ∧ s.2 < 10 := by
    intro s hs
    obtain ⟨a, b⟩ := s
    obtain ⟨h1, h2⟩ := List.of_mem_zip hs
    exact ⟨hy a h1, hp b h2⟩
  refine ⟨confusion_matrix env.y_test
    ((predict expf env.cnn_model noise env.x_test).map np_argmax),
    rfl, by simp [confusion_matrix], ?_, ?_, ?_⟩
  · intro row hrow
    simp only [confusion_matrix, List.mem_map] at hrow
    obtain ⟨i, _hi, rfl⟩ := hrow
    simp
  · unfold confusion_matrix
    rw [List.map_map]
    rw [sum_map_range]
    simp only [Function.comp]
    rw [Finset.sum_congr rfl fun i _ => sum_map_range _ 10]
    rw [Finset.sum_congr rfl fun i _ =>
      countP_pair_row i _ fun s hs => (hzip s hs).2]
    rw [countP_pair_total _ fun s hs => (hzip s hs).1]
    rw [List.length_zip, hplen, Nat.min_self]
  · intro i hi
    unfold confusion_matrix
    rw [getD_map_range _ 10 i [] hi]
    rw [sum_map_range]
    rw [countP_pair_row i _ fun s hs => (hzip s hs).2]
    rw [countP_zip_fst i env.y_test _ hplen.symm]

/-- Witness for C5 at a concrete one-sample evaluation run. -/
theorem C5_confusion_matrix_invariants_witness :
    (∀ y ∈ sampleEnv.y_test, y < 10) ∧
    sampleEnv.cnn_model.dense_7.weights.length = 10 ∧
    sampleEnv.cnn_model.dense_7.biases.length = 10 ∧
    sampleEnv.y_test.length = sampleEnv.x_test.length ∧
    (∃ cmv, (confusion_cell id allKeep sampleEnv).cm = some cmv ∧
      cmv.length = 10 ∧ (∀ row ∈ cmv, row.length = 10) ∧
      (cmv.map List.sum).sum = sampleEnv.y_test.length ∧
      ∀ i, i < 10 →
        (cmv.getD i []).sum
          = sampleEnv.y_test.countP fun t => decide (t = i)) :=
  ⟨by decide, by decide, by decide, by decide,
    C5_confusion_matrix_invariants id allKeep sampleEnv (by decide)
      (by decide) (by decide) (by decide)⟩

/-- C6 (refutation at a concrete input): on an evaluation run whose test
partition contains only class 0, class 9's row sums to 0 and the
per-class accuracy computation produces NaN (modelled `Option.none`),
not 0. -/
theorem C6_counterexample :
    ¬ ((per_class_accuracy (confusion_matrix [0] [0])).getD 9 Option.none
        = some 0) := by decide

/-- C6 (amended): per-class accuracy lies in [0, 1] whenever it is a
number — in particular whenever the class's row sum is positive; when a
class's row sum is 0 the computation does not raise a division error but
yields NaN (modelled `Option.none`), not 0. -/
theorem C6_per_class_accuracy_range (cm : List (List Nat)) (i : Nat)
    (hi : i < cm.length) :
    ((cm.getD i []).sum = 0 →
        (per_class_accuracy cm).getD i Option.none = Option.none) ∧
      ((cm.getD i []).sum ≠ 0 →
        ∃ q, (per_class_accuracy cm).getD i Option.none = some q ∧
          0 ≤ q ∧ q ≤ 1) := by
  have hacc : (per_class_accuracy cm).getD i Option.none
      = np_true_divide ((cm.getD i []).getD i 0) (cm.getD i []).sum := by
    unfold per_class_accuracy
    exact getD_map_range _ cm.length i Option.none hi
  constructor
  · intro h0
    rw [hacc]
    unfold np_true_divide
    rw [if_pos h0]
  · intro hne
    rw [hacc]
    unfold np_true_divide
    rw [if_neg hne]
    refine ⟨_, rfl, ?_, ?_⟩
    · exact div_nonneg (Nat.cast_nonneg _) (Nat.cast_nonneg _)
    · refine (div_le_one ?_).mpr ?_
      · exact_mod_cast Nat.pos_of_ne_zero hne
      · exact_mod_cast getD_le_sum (cm.getD i []) i

/-- Witness for C6 on the class-0 row of a concrete confusion matrix. -/
theorem C6_per_class_accuracy_range_witness :
    0 < (confusion_matrix [0] [0]).length ∧
    ((((confusion_matrix [0] [0]).getD 0 []).sum = 0 →
        (per_class_accuracy (confusion_matrix [0] [0])).getD 0 Option.none
          = Option.none) ∧
      ((((confusion_matrix [0] [0]).getD 0 []).sum ≠ 0 →
        ∃ q, (per_class_accuracy (confusion_matrix [0] [0])).getD 0
            Option.none = some q ∧
          0 ≤ q ∧ q ≤ 1))) :=
  ⟨by decide,
    C6_per_class_accuracy_range (confusion_matrix [0] [0]) 0 (by decide)⟩

/-- C8: under the drop-remainder policy, a batch size equal to the
partition size yields exactly one mini-batch per epoch; a batch size
exceeding the partition size yields zero mini-batches and zero
gradient-update steps, and the loop still runs to completion, printing
both progress lines of every epoch. -/
theorem C8_boundary_batch_sizes {G O : Type} (lib : TFLib G O)
    (dataset : List (Tensor3 × Nat)) (B E : Nat)
    (p : CIFAR10ClassifierParams) (o : O) (hne : dataset ≠ []) :
    (B = dataset.length →
        (∀ e, (epochBatches (lib.shuffle e) dataset B).length = 1) ∧
        (train_loop lib dataset B E p o).update_steps = E) ∧
      (dataset.length < B →
        (∀ e, epochBatches (lib.shuffle e) dataset B = []) ∧
        (train_loop lib dataset B E p o).update_steps = 0 ∧
        (train_loop lib dataset B E p o).logs.length = 2 * E) := by
  obtain ⟨h1, h2, _h3⟩ := train_loop_stats lib dataset B E p o
  have hlen0 : dataset.length ≠ 0 := by
    intro h
    exact hne (List.length_eq_zero.mp h)
  constructor
  · intro hB
    constructor
    · intro e
      rw [epochBatches_unshuffled, batchDrop_length, hB,
        Nat.div_self (Nat.pos_of_ne_zero hlen0)]
    · rw [h1, batchDrop_length, hB,
        Nat.div_self (Nat.pos_of_ne_zero hlen0), Nat.mul_one]
  · intro hBB
    refine ⟨?_, ?_, h2⟩
    · intro e
      rw [epochBatches_unshuffled, batchDrop]
      simp [hBB]
    · rw [h1, batchDrop_length, Nat.div_eq_of_lt hBB, Nat.mul_zero]

/-- Witness for C8 over a concrete 2-sample partition with batch size 3
and 2 epochs (the oversized-batch boundary). -/
theorem C8_boundary_batch_sizes_witness :
    ([(img 0, 0), (img 1, 1)] : List (Tensor3 × Nat)) ≠ [] ∧
    ((3 = ([(img 0, 0), (img 1, 1)] : List (Tensor3 × Nat)).length →
        (∀ e, (epochBatches (unitLib.shuffle e)
            [(img 0, 0), (img 1, 1)] 3).length = 1) ∧
        (train_loop unitLib [(img 0, 0), (img 1, 1)] 3 2 zeroParams
          ()).update_steps = 2) ∧
      (([(img 0, 0), (img 1, 1)] : List (Tensor3 × Nat)).length < 3 →
        (∀ e, epochBatches (unitLib.shuffle e)
            [(img 0, 0), (img 1, 1)] 3 = []) ∧
        (train_loop unitLib [(img 0, 0), (img 1, 1)] 3 2 zeroParams
          ()).update_steps = 0 ∧
        (train_loop unitLib [(img 0, 0), (img 1, 1)] 3 2 zeroParams
          ()).logs.length = 2 * 2)) :=
  ⟨by decide,
    C8_boundary_batch_sizes unitLib [(img 0, 0), (img 1, 1)] 3 2
      zeroParams () (by decide)⟩

end KerasCnn
